/-
Verification of the RC-sender-and-receiver repository.

The repository consists of two Arduino C++ programs:
  * the receiver ("RC car receiver on Pro Mini/src/main.cpp"), and
  * the transmitter (the sender program for a Teensy LC).

This file gives a shallow embedding of the packet contract, the receiver's
validation / link-loss / actuator logic, and the transmitter's joystick
homing filter and Pro-mode settings-edit sub-state-machine, and proves or
refutes the specified properties over that embedding.

Modelling conventions:
  * `millis()` timestamps are modelled as a monotone `Nat` clock supplied to
    each cycle; the unsigned 32-bit subtraction `millis() - lastReceive` is
    modelled by `Nat` subtraction (no wraparound within a run).
  * The radio is an unreliable datagram transport: each receiver cycle is
    given `Option Packet` (the result of one `radio.available()` poll).
  * The wire layout of the ten boolean struct fields is one byte each, and
    `radio.read` is a raw copy, so those fields are modelled as `Nat` bytes
    with C truthiness (nonzero = true); the analog and sensitivity fields
    are modelled as `Int` (`int16_t` / `int8_t` values).
  * Single-precision IEEE-754 arithmetic in `updatePwmDevices` is modelled
    exactly over `ℚ` with round-to-nearest, ties-to-even (`fl32` below).
-/
import Mathlib

namespace RCCar

/-- The `dataPackage` struct shared by both programs (default member
initializers of the receiver's copy; the receiver starts with
`mode = 4` = not connected). Boolean fields are wire bytes. -/
structure Packet where
  rightX : ℤ := -1
  leftX : ℤ := -1
  rightY : ℤ := -1
  leftY : ℤ := -1
  mode : ℤ := 4
  throttleSensitifity : ℤ := -1
  steerSensitifity : ℤ := -1
  rightJoystickButton : ℕ := 0
  leftJoystickButton : ℕ := 0
  ackButton : ℕ := 0
  backButton : ℕ := 0
  auxButton1 : ℕ := 0
  auxButton2 : ℕ := 0
  brake : ℕ := 0
  honk : ℕ := 0
  headLight : ℕ := 0
  tailLight : ℕ := 0
deriving DecidableEq, Repr

/-- Statemachine option `idle` (receiver and transmitter). -/
def idle : ℤ := 0

/-- Statemachine option `easy`. -/
def easy : ℤ := 1

/-- Statemachine option `pro`. -/
def pro : ℤ := 2

/-- Statemachine option `debug`. -/
def debugOpt : ℤ := 3

/-- Receiver-only statemachine option `notConnected`. -/
def notConnected : ℤ := 4

/-- `validateData` of the receiver: range-checks the four analog fields, the
mode and the two sensitivities, in the order of the source; the boolean
fields are not checked (source comment: booleans still to do). -/
def validateData (check : Packet) : Bool :=
  if check.rightX > 1023 ∨ check.rightX < -1 then false
  else if check.rightY > 1023 ∨ check.rightY < -1 then false
  else if check.leftX > 1023 ∨ check.leftX < -1 then false
  else if check.leftY > 1023 ∨ check.leftY < -1 then false
  else if check.mode > 3 ∨ check.mode < 0 then false
  else if check.throttleSensitifity > 100 ∨ check.throttleSensitifity < -1 then false
  else if check.steerSensitifity > 100 ∨ check.steerSensitifity < -1 then false
  else true

/-! ### Exact model of the receiver's `float` arithmetic

`updatePwmDevices` computes the steering/throttle bounds in single-precision
`float` (AVR: 32-bit IEEE-754, round to nearest, ties to even) and then
truncates to `unsigned int`.  A value is carried as an exact, not
necessarily reduced fraction `n / d` with `d > 0` (`Dy` below); every
nonzero intermediate of that computation lies in `[2^(-3), 2^8)`, so `fl32`
implements binary32 rounding exactly on that range (plus sign and zero). -/

/-- An exact fraction `n / d` (by construction `d > 0`); the denominators
occurring here are `1`, `100` and powers of two. -/
structure Dy where
  n : ℤ
  d : ℤ
deriving DecidableEq, Repr

/-- `2 ^ k` as an integer. -/
def p2 (k : ℕ) : ℤ := ((2 ^ k : ℕ) : ℤ)

/-- Round `n / d` (with `d > 0`) to the nearest integer, ties to even. -/
def roundHalfEvenFrac (n d : ℤ) : ℤ :=
  let f := Int.ediv n d
  let r2 := 2 * (n - f * d)
  if r2 < d then f
  else if d < r2 then f + 1
  else if f % 2 = 0 then f else f + 1

/-- Whether `2 ^ e ≤ x` for a positive fraction `x`. -/
def dyLe2pow (e : ℤ) (x : Dy) : Bool :=
  if 0 ≤ e then decide (p2 e.toNat * x.d ≤ x.n) else decide (x.d ≤ x.n * p2 (-e).toNat)

/-- Largest exponent `e` in `[-3, 8]` with `2 ^ e ≤ x` (the binary32
exponent of every nonzero value arising in `updatePwmDevices`). -/
def floatExp (x : Dy) : ℤ :=
  (List.range 12).foldl (fun acc k => if dyLe2pow ((k : ℤ) - 3) x then (k : ℤ) - 3 else acc) (-4)

/-- Binary32 rounding of a positive fraction in `[2^(-3), 2^8)`: round the
24-bit significand `x * 2^(23-e)` to nearest, ties to even. -/
def fl32pos (x : Dy) : Dy :=
  let e := floatExp x
  let m := if e ≤ 23 then roundHalfEvenFrac (x.n * p2 (23 - e).toNat) x.d
           else roundHalfEvenFrac x.n (x.d * p2 (e - 23).toNat)
  if 23 ≤ e then ⟨m * p2 (e - 23).toNat, 1⟩ else ⟨m, p2 (23 - e).toNat⟩

/-- Binary32 rounding (sign-symmetric, zero preserved). -/
def fl32 (x : Dy) : Dy :=
  if x.n = 0 then ⟨0, 1⟩
  else if 0 < x.n then fl32pos x
  else ⟨-(fl32pos ⟨-x.n, x.d⟩).n, (fl32pos ⟨-x.n, x.d⟩).d⟩

/-- `k + x` for an integer `k` and a fraction `x`. -/
def dyAddInt (k : ℤ) (x : Dy) : Dy := ⟨k * x.d + x.n, x.d⟩

/-- `k - x` for an integer `k` and a fraction `x`. -/
def dySubInt (k : ℤ) (x : Dy) : Dy := ⟨k * x.d - x.n, x.d⟩

/-- `x * k` for a fraction `x` and an integer `k`. -/
def dyMulInt (x : Dy) (k : ℤ) : Dy := ⟨x.n * k, x.d⟩

/-- The C cast `(unsigned int)` of a nonnegative `float` value: truncation
toward zero (for `d > 0` and nonnegative value this is the floor). -/
def dyToUInt (x : Dy) : ℕ := (Int.ediv x.n x.d).toNat

/-- Arduino's `map` over `long` arithmetic: C division truncates toward
zero. -/
def arduinoMap (x inMin inMax outMin outMax : ℤ) : ℤ :=
  Int.tdiv ((x - inMin) * (outMax - outMin)) (inMax - inMin) + outMin

/-- The per-axis computation of `updatePwmDevices`: bounds
`middlepoint ± (float)middlepoint / 100 * sens` (each `float` operation
individually rounded, results truncated to `unsigned int`), then
`map(raw, 0, 1023, min, max)`; `middlepoint` is `180 / 2 = 90`. -/
def pwmMap (sens raw : ℤ) : ℤ :=
  let t1 := fl32 ⟨90, 100⟩
  let t2 := fl32 (dyMulInt t1 sens)
  let mx : ℤ := dyToUInt (fl32 (dyAddInt 90 t2))
  let mn : ℤ := dyToUInt (fl32 (dySubInt 90 t2))
  arduinoMap raw 0 1023 mn mx

/-! ### Receiver state machine -/

/-- The receiver's mutable state: the two packet globals, the link-loss
timestamp, the last value written to each PWM device (the Servo library
replays the last written command continuously), and the output pins. -/
structure RxState where
  rawData : Packet
  rxData : Packet
  lastReceive : ℕ
  motorCmd : ℤ
  servoCmd : ℤ
  receivedLED : Bool
  interferenceLED : Bool
  headLightPin : Bool
  tailLightPin : Bool
deriving DecidableEq, Repr

/-- The external inputs of one pass of the receiver's `loop()`: the current
`millis()` value, the result of the `radio.available()` poll, and whether
the `waitForRemote` blink timer has expired. -/
structure RxCycle where
  now : ℕ
  incoming : Option Packet
  blinkExpired : Bool
deriving DecidableEq, Repr

/-- `receiveData`: if a packet arrived, flash the received LED, timestamp
`lastReceive`, read the packet into `rawData`, and copy it into `rxData`
only if it validates, otherwise assert the interference LED.  (The one-shot
reconnection tone has no modelled state.) -/
def receiveData (now : ℕ) (incoming : Option Packet) (s : RxState) : RxState :=
  match incoming with
  | none => s
  | some pkt =>
    let s1 := { s with receivedLED := true, lastReceive := now, rawData := pkt }
    let s2 := if validateData pkt then { s1 with rxData := pkt }
              else { s1 with interferenceLED := true }
    { s2 with receivedLED := false }

/-- `isConnected`: force `notConnected` when more than 3000 ms elapsed since
`lastReceive`. -/
def isConnected (now : ℕ) (s : RxState) : RxState :=
  if 3000 < now - s.lastReceive then
    { s with rxData := { s.rxData with mode := notConnected } }
  else s

/-- `updateAccessoires`: drive the light pins from the active packet and
command the motor controller to 0 while the brake flag is set (the horn
tone has no modelled state). -/
def updateAccessoires (s : RxState) : RxState :=
  let s1 := { s with headLightPin := s.rxData.headLight ≠ 0,
                     tailLightPin := s.rxData.tailLight ≠ 0 }
  if s.rxData.brake ≠ 0 then { s1 with motorCmd := 0 } else s1

/-- `updatePwmDevices`: write the mapped steering position to the servo and
then the mapped throttle to the motor controller. -/
def updatePwmDevices (s : RxState) : RxState :=
  let s1 := { s with servoCmd := pwmMap s.rxData.steerSensitifity s.rxData.leftX }
  { s1 with motorCmd := pwmMap s1.rxData.throttleSensitifity s1.rxData.rightY }

/-- `waitForRemote` (mode `notConnected`): hold both actuators neutral,
poll the radio, and blink head/tail lights on the 1500 ms timer. -/
def waitForRemote (c : RxCycle) (s : RxState) : RxState :=
  let s1 := receiveData c.now c.incoming { s with motorCmd := 90, servoCmd := 90 }
  if c.blinkExpired then
    { s1 with headLightPin := !s1.headLightPin, tailLightPin := !s1.tailLightPin }
  else s1

/-- `idleMode`: poll, link-check, accessories, then stop the motor.  The
servo is not written in this mode. -/
def idleMode (c : RxCycle) (s : RxState) : RxState :=
  let s1 := updateAccessoires (isConnected c.now (receiveData c.now c.incoming s))
  { s1 with motorCmd := 90 }

/-- `easyMode`: poll, link-check, accessories, then PWM devices. -/
def easyMode (c : RxCycle) (s : RxState) : RxState :=
  updatePwmDevices (updateAccessoires (isConnected c.now (receiveData c.now c.incoming s)))

/-- `proMode`: identical actuation path to `easyMode`. -/
def proMode (c : RxCycle) (s : RxState) : RxState :=
  updatePwmDevices (updateAccessoires (isConnected c.now (receiveData c.now c.incoming s)))

/-- `debugMode`: poll and link-check only. -/
def debugMode (c : RxCycle) (s : RxState) : RxState :=
  isConnected c.now (receiveData c.now c.incoming s)

/-- One pass of the receiver's `loop()`: dispatch on `rxData.mode`.  An
out-of-range mode matches no case and does nothing. -/
def loopStep (c : RxCycle) (s : RxState) : RxState :=
  if s.rxData.mode = notConnected then waitForRemote c s
  else if s.rxData.mode = idle then idleMode c s
  else if s.rxData.mode = easy then easyMode c s
  else if s.rxData.mode = pro then proMode c s
  else if s.rxData.mode = debugOpt then debugMode c s
  else s

/-- Run the receiver loop over a list of cycles. -/
def runCycles : RxState → List RxCycle → RxState
  | s, [] => s
  | s, c :: cs => runCycles (loopStep c s) cs

/-! ### Transmitter: joystick homing filter

The sender's `readJoystick`.  Pin numbers of the analog axes on the target
board (Teensy LC): `A0`..`A3` are pins 14..17; only their distinctness
matters to the switch.  The pin is sampled up to five times inside one call;
the model supplies one stable sample per call, as the spec's sample
sequences do. -/

/-- Pin number of the `rightX` axis (`A0`). -/
def rightXPin : ℕ := 14

/-- Pin number of the `rightY` axis (`A1`). -/
def rightYPin : ℕ := 15

/-- Pin number of the `leftX` axis (`A2`). -/
def leftXPin : ℕ := 16

/-- Pin number of the `leftY` axis (`A3`). -/
def leftYPin : ℕ := 17

/-- Joystick trigger thresholds of the sender. -/
def joyStickLowTrigger : ℤ := 400

/-- Joystick trigger thresholds of the sender. -/
def joyStickHighTrigger : ℤ := 600

/-- The switch at the head of `readJoystick`: axis pin to index in the
`joystickHomed` array (`leftY` 0, `leftX` 1, `rightY` 2, `rightX` 3). -/
def joystickIndex (j : ℕ) : Option (Fin 4) :=
  if j = leftYPin then some 0
  else if j = leftXPin then some 1
  else if j = rightYPin then some 2
  else if j = rightXPin then some 3
  else none

/-- The per-axis body of `readJoystick`: re-arm `homed` inside the strict
deadband, and emit the real reading exactly when out of band and armed. -/
def readJoystickAxis (sample : ℤ) (homed : Bool) : ℤ × Bool :=
  let homed1 := if sample < joyStickHighTrigger ∧ joyStickLowTrigger < sample then true else homed
  if (joyStickHighTrigger < sample ∨ sample < joyStickLowTrigger) ∧ homed1 = true then
    (sample, false)
  else (512, homed1)

/-- `readJoystick`: an unrecognized pin reports a diagnostic and returns the
neutral sentinel 512 without touching any state. -/
def readJoystick (j : ℕ) (sample : ℤ) (homed : Fin 4 → Bool) : ℤ × (Fin 4 → Bool) :=
  match joystickIndex j with
  | none => (512, homed)
  | some i =>
    let r := readJoystickAxis sample (homed i)
    (r.1, Function.update homed i r.2)

/-- Run `readJoystick` on one axis over a list of consecutive samples,
collecting the returned readings. -/
def runJoystick (j : ℕ) : (Fin 4 → Bool) → List ℤ → List ℤ
  | _, [] => []
  | h, x :: xs =>
    let r := readJoystick j x h
    r.1 :: runJoystick j r.2 xs

/-! ### Transmitter: Pro-mode settings-edit sub-state-machine

`drawEditProSettings` and the EEPROM interactions of `drawProScreen`.
EEPROM slots are single bytes; `byte`/`int8_t` conversions are modelled
exactly. -/

/-- Reinterpret a byte as an `int8_t` (two's complement). -/
def int8ofByte (b : ℕ) : ℤ :=
  if b % 256 < 128 then (b % 256 : ℤ) else (b % 256 : ℤ) - 256

/-- Sender state visible to the Pro screen and the settings editor:
the outgoing packet, the two EEPROM slots, and the editor's locals
(`valueHighlighted`, `showCurrentValue`, `page`, `buffer`) together with
the homing flag of the `leftY` axis (index 0 of `joystickHomed`). -/
structure EditState where
  txData : Packet
  eeprom0 : ℕ
  eeprom1 : ℕ
  valueHighlighted : Bool
  showCurrentValue : Bool
  page : Bool
  buffer : ℕ
  homedLeftY : Bool
deriving DecidableEq, Repr

/-- External inputs of one iteration of the `drawEditProSettings` loop:
whether the rate-limited send fires, the two timer comparisons, the raw
`rightY` samples of the scroll block, the two button edges, and the `leftY`
sample of the tab-switch block. -/
structure EditInput where
  sendNow : Bool
  blinkExpired : Bool
  scrollExpired : Bool
  rightY : ℤ
  ackEdge : Bool
  backEdge : Bool
  leftY : ℤ
deriving DecidableEq, Repr

/-- Entry into `drawEditProSettings`: mode forced to `idle` so the vehicle
holds still, locals initialised, buffer loaded from the throttle
sensitivity (int8 → byte). -/
def editEntry (s : EditState) : EditState :=
  { s with txData := { s.txData with mode := idle },
           showCurrentValue := true,
           valueHighlighted := false,
           page := false,
           buffer := (s.txData.throttleSensitifity % 256).toNat }

/-- The tab-switch block at the bottom of the edit loop: a `readJoystick`
deflection on `leftY` while nothing is highlighted flips the page and
reloads the buffer from the page's live sensitivity. -/
def editTabSwitch (st : EditState) (inp : EditInput) : EditState :=
  let r := readJoystickAxis inp.leftY st.homedLeftY
  let st1 := { st with homedLeftY := r.2 }
  if (joyStickHighTrigger < r.1 ∨ r.1 < joyStickLowTrigger) ∧ st1.valueHighlighted = false then
    let page := !st1.page
    { st1 with page := page,
               buffer := if page = false then (st1.txData.throttleSensitifity % 256).toNat
                         else (st1.txData.steerSensitifity % 256).toNat }
  else st1

/-- The blink and scroll blocks at the head of the edit loop body: toggle
the value's visibility on the 700 ms timer while highlighted, and, when the
100 ms scroll cooldown has expired, step the highlighted buffer by 5 within
`[5, 100]` according to the `rightY` deflection. -/
def editBlinkScroll (st : EditState) (inp : EditInput) : EditState :=
  let st1 := if inp.blinkExpired ∧ st.valueHighlighted then
               { st with showCurrentValue := !st.showCurrentValue }
             else st
  if inp.scrollExpired then
    if st1.valueHighlighted ∧ joyStickHighTrigger < inp.rightY ∧ 5 < st1.buffer then
      { st1 with buffer := (st1.buffer - 5) % 256, showCurrentValue := true }
    else if st1.valueHighlighted ∧ inp.rightY < joyStickLowTrigger ∧ st1.buffer < 100 then
      { st1 with buffer := (st1.buffer + 5) % 256, showCurrentValue := true }
    else st1
  else st1

/-- One iteration of the `drawEditProSettings` loop after the send and the
drawing: blink toggle, rate-limited value scrolling, button handling, then
tab switching.  Returns the new state and whether the loop was exited (the
`break` restoring `mode = pro`). -/
def editStep (st : EditState) (inp : EditInput) : EditState × Bool :=
  let st2 := editBlinkScroll st inp
  if inp.ackEdge then
    let st3 :=
      if st2.valueHighlighted = false then { st2 with valueHighlighted := true }
      else
        let st4 := { st2 with valueHighlighted := false, showCurrentValue := true }
        if st4.page = false then
          { st4 with eeprom0 := st4.buffer,
                     txData := { st4.txData with throttleSensitifity := int8ofByte st4.buffer } }
        else
          { st4 with eeprom1 := st4.buffer,
                     txData := { st4.txData with steerSensitifity := int8ofByte st4.buffer } }
    (editTabSwitch st3 inp, false)
  else if inp.backEdge then
    if st2.valueHighlighted = false then
      ({ st2 with txData := { st2.txData with mode := pro } }, true)
    else
      (editTabSwitch { st2 with valueHighlighted := false, showCurrentValue := true,
                                buffer := if st2.page = false then st2.eeprom0 else st2.eeprom1 } inp,
       false)
  else (editTabSwitch st2 inp, false)

/-- Run the edit loop over a list of iteration inputs, collecting the mode
field of every packet actually sent (the rate-limited `sendData(debug)` at
the top of each iteration sends the current `txData`).  Returns the sent
modes, the final state and whether the loop exited. -/
def runEditCollect : EditState → List EditInput → List ℤ × EditState × Bool
  | st, [] => ([], st, false)
  | st, inp :: inps =>
    let sent : List ℤ := if inp.sendNow then [st.txData.mode] else []
    let r := editStep st inp
    if r.2 then (sent, r.1, true)
    else
      let rest := runEditCollect r.1 inps
      (sent ++ rest.1, rest.2.1, rest.2.2)

/-- Entry into `drawProScreen`: mode `pro`, throttle sensitivity loaded from
EEPROM slot 0, steering sensitivity from EEPROM slot 1 (byte → int8). -/
def proScreenEntry (s : EditState) : EditState :=
  let t := { s.txData with
             mode := pro,
             throttleSensitifity := int8ofByte s.eeprom0,
             steerSensitifity := int8ofByte s.eeprom1 }
  { s with txData := t }

/-! ### Concrete example values used by witnesses and counterexamples -/

/-- A fully in-domain packet in easy mode (all booleans in `{0,1}`). -/
def pEasy : Packet :=
  { rightX := 512, leftX := 512, rightY := 900, leftY := 512,
    mode := 1, throttleSensitifity := 40, steerSensitifity := 50 }

/-- `pEasy` with the brake flag set. -/
def pEasyBrake : Packet := { pEasy with brake := 1 }

/-- An out-of-domain packet: `rightX` beyond 1023. -/
def pInvalid : Packet := { pEasy with rightX := 2000 }

/-- A packet whose only out-of-domain field is a boolean (wire byte 7). -/
def pBadBool : Packet := { pEasy with rightJoystickButton := 7 }

/-- A receiver state whose active packet is `p` (neutral actuators, LEDs
off, `lastReceive = 0`). -/
def mkRx (p : Packet) : RxState :=
  { rawData := {}, rxData := p, lastReceive := 0, motorCmd := 90, servoCmd := 90,
    receivedLED := false, interferenceLED := false, headLightPin := false, tailLightPin := false }

/-- A sender state on the Pro screen with distinct EEPROM slot contents. -/
def eEx : EditState :=
  { txData := { pEasy with mode := 2 }, eeprom0 := 11, eeprom1 := 22,
    valueHighlighted := false, showCurrentValue := true, page := false,
    buffer := 40, homedLeftY := true }

/-- An edit-loop iteration with no timer, joystick or button activity. -/
def iNop : EditInput :=
  { sendNow := true, blinkExpired := false, scrollExpired := false,
    rightY := 512, ackEdge := false, backEdge := false, leftY := 512 }

/-- An edit-loop iteration with only a back-button edge. -/
def iBack : EditInput := { iNop with backEdge := true }

/-- An edit-loop iteration with only an acknowledge-button edge. -/
def iAck : EditInput := { iNop with ackEdge := true }

/-! ## Claim theorems -/

/-- Claim C3 (amended): `validateData` accepts a packet exactly when the
four analog axes lie in `[-1, 1023]`, the mode in `[0, 3]` and both
sensitivities in `[-1, 100]`; the ten boolean fields are not checked at
all. -/
theorem validateData_iff_numeric_ranges (p : Packet) :
    validateData p = true ↔
      (-1 ≤ p.rightX ∧ p.rightX ≤ 1023) ∧ (-1 ≤ p.rightY ∧ p.rightY ≤ 1023) ∧
      (-1 ≤ p.leftX ∧ p.leftX ≤ 1023) ∧ (-1 ≤ p.leftY ∧ p.leftY ≤ 1023) ∧
      (0 ≤ p.mode ∧ p.mode ≤ 3) ∧
      (-1 ≤ p.throttleSensitifity ∧ p.throttleSensitifity ≤ 100) ∧
      (-1 ≤ p.steerSensitifity ∧ p.steerSensitifity ≤ 100) := by
  unfold validateData
  split_ifs <;> simp <;> omega

/-- Claim C3, counterexample to the claim as stated: a packet whose only
out-of-domain field is the boolean `rightJoystickButton` (wire byte 7) is
nevertheless accepted by `validateData`. -/
theorem validateData_accepts_bad_boolean :
    pBadBool.rightJoystickButton = 7 ∧ validateData pBadBool = true := by
  constructor <;> rfl

/-- Claim C4: when the received packet fails validation, the active packet
`rxData` is left entirely unchanged by `receiveData`. -/
theorem receiveData_invalid_preserves_rxData (now : ℕ) (pkt : Packet) (s : RxState)
    (h : validateData pkt = false) :
    (receiveData now (some pkt) s).rxData = s.rxData := by
  simp [receiveData, h]

/-- Claim C4, witness: the concrete invalid packet `pInvalid` leaves the
active packet of `mkRx pEasy` untouched. -/
theorem receiveData_invalid_preserves_rxData_witness :
    validateData pInvalid = false ∧
      (receiveData 5 (some pInvalid) (mkRx pEasy)).rxData = (mkRx pEasy).rxData :=
  ⟨by decide, receiveData_invalid_preserves_rxData 5 pInvalid (mkRx pEasy) (by decide)⟩

/-- Claim C6 (amended): every `idleMode` cycle commands the motor
controller to neutral 90, but never writes the steering servo, whose last
command persists. -/
theorem idleMode_motor_neutral_servo_untouched (c : RxCycle) (s : RxState) :
    (idleMode c s).motorCmd = 90 ∧ (idleMode c s).servoCmd = s.servoCmd := by
  cases hi : c.incoming <;>
    simp [idleMode, updateAccessoires, isConnected, receiveData, hi] <;>
    split_ifs <;> simp

/-- Claim C6, counterexample to the claim as stated: with the servo last
commanded to 65, an idle cycle leaves the steering command at 65, not at
the neutral 90. -/
theorem idleMode_servo_not_neutral_cex :
    (idleMode ⟨0, none, false⟩ { mkRx { pEasy with mode := 0 } with servoCmd := 65 }).servoCmd = 65 ∧
      ((65 : ℤ) = 90 → False) := by
  constructor
  · rfl
  · decide

/-- The interference LED survives `receiveData` unchanged unless a packet
arrives and fails validation, in which case it is set. -/
theorem receiveData_interference (now : ℕ) (inc : Option Packet) (s : RxState) :
    (receiveData now inc s).interferenceLED =
      (s.interferenceLED || inc.elim false (fun p => !validateData p)) := by
  cases inc with
  | none => simp [receiveData]
  | some p => cases hv : validateData p <;> simp [receiveData, hv]

/-- `isConnected` does not touch the interference LED. -/
theorem isConnected_interference (now : ℕ) (s : RxState) :
    (isConnected now s).interferenceLED = s.interferenceLED := by
  unfold isConnected; split_ifs <;> rfl

/-- `updateAccessoires` does not touch the interference LED. -/
theorem updateAccessoires_interference (s : RxState) :
    (updateAccessoires s).interferenceLED = s.interferenceLED := by
  unfold updateAccessoires; split_ifs <;> rfl

/-- `updatePwmDevices` does not touch the interference LED. -/
theorem updatePwmDevices_interference (s : RxState) :
    (updatePwmDevices s).interferenceLED = s.interferenceLED := rfl

/-- No pass of the receiver loop ever clears the interference LED. -/
theorem loopStep_interference_mono (c : RxCycle) (s : RxState)
    (h : s.interferenceLED = true) : (loopStep c s).interferenceLED = true := by
  unfold loopStep waitForRemote idleMode easyMode proMode debugMode
  split_ifs <;>
    simp [apply_ite (fun st : RxState => st.interferenceLED),
          updatePwmDevices_interference, updateAccessoires_interference,
          isConnected_interference, receiveData_interference, h]

/-- Claim C7 (amended): the interference indicator is latched, not
self-clearing: `receiveData` asserts it on a rejected packet and otherwise
leaves it alone, and no later loop pass — in particular none accepting a
valid packet — ever deasserts it. -/
theorem interference_latched :
    (∀ (now : ℕ) (inc : Option Packet) (s : RxState),
        (receiveData now inc s).interferenceLED =
          (s.interferenceLED || inc.elim false (fun p => !validateData p))) ∧
      (∀ (c : RxCycle) (s : RxState), s.interferenceLED = true →
        (loopStep c s).interferenceLED = true) :=
  ⟨receiveData_interference, loopStep_interference_mono⟩

/-- Claim C7, witness: a rejection asserts the LED, and a following pass
that accepts a valid packet keeps it asserted. -/
theorem interference_latched_witness :
    (receiveData 5 (some pInvalid) (mkRx pEasy)).interferenceLED =
        ((mkRx pEasy).interferenceLED ||
          (some pInvalid).elim false (fun p => !validateData p)) ∧
      (loopStep ⟨10, some pEasy, false⟩
          (receiveData 5 (some pInvalid) (mkRx pEasy))).interferenceLED = true :=
  ⟨interference_latched.1 5 (some pInvalid) (mkRx pEasy),
   interference_latched.2 ⟨10, some pEasy, false⟩
     (receiveData 5 (some pInvalid) (mkRx pEasy)) (by decide)⟩

/-- Claim C7, counterexample to the claim as stated: after a rejection at
time 5, accepting the valid packet `pEasy` at time 10 leaves the
interference indicator still asserted — it is not self-clearing. -/
theorem interference_not_selfclearing_cex :
    validateData pEasy = true ∧
      (receiveData 10 (some pEasy)
          (receiveData 5 (some pInvalid) (mkRx pEasy))).interferenceLED = true := by
  constructor <;> rfl

/-- Claim C2 (code bug): with the brake flag set in the active easy-mode
packet, `updateAccessoires` does command the motor controller to 0, but
`updatePwmDevices` runs afterwards in the same cycle and overwrites that
command with the mapped throttle (117 here), so the command in effect at
the end of the cycle is not the minimum position. -/
theorem easyMode_brake_overwritten_by_throttle :
    pEasyBrake.brake ≠ 0 ∧ validateData pEasyBrake = true ∧
      (updateAccessoires (mkRx pEasyBrake)).motorCmd = 0 ∧
      (easyMode ⟨0, none, false⟩ (mkRx pEasyBrake)).motorCmd = 117 ∧
      ((easyMode ⟨0, none, false⟩ (mkRx pEasyBrake)).motorCmd = 0 → False) := by
  refine ⟨by decide, by rfl, by rfl, by rfl, ?_⟩
  intro h
  rw [show (easyMode ⟨0, none, false⟩ (mkRx pEasyBrake)).motorCmd = 117 from rfl] at h
  exact absurd h (by decide)

/-- Claim C8 (amended): for the centered raw value 512, the float-computed
bounds of `updatePwmDevices` are asymmetric whenever `90 * s / 100` is not
an integer, and the mapped output is the neutral 90 exactly for
sensitivities that are multiples of 10; for every other `s` in `[0, 100]`
it is 89. -/
theorem pwmMap_center (s : ℕ) (hs : s < 101) :
    pwmMap (s : ℤ) 512 = if s % 10 = 0 then 90 else 89 := by
  revert s hs
  decide

/-- Claim C8, witness: sensitivity 7 maps the center to 89, sensitivity 40
to 90. -/
theorem pwmMap_center_witness :
    pwmMap (7 : ℤ) 512 = 89 ∧ pwmMap (40 : ℤ) 512 = 90 := by
  have h7 := pwmMap_center 7 (by decide)
  have h40 := pwmMap_center 40 (by decide)
  simp at h7 h40
  exact ⟨h7, h40⟩

/-- Claim C8, counterexample to the claim as stated: at sensitivity 5 the
code maps the center 512 to 89, not to the neutral 90. -/
theorem pwmMap_center_cex :
    pwmMap (5 : ℤ) 512 = 89 ∧ (pwmMap (5 : ℤ) 512 = 90 → False) := by
  constructor
  · decide
  · intro h; exact absurd h (by decide)

/-- `receiveData` with an empty poll leaves the state unchanged. -/
theorem receiveData_none (now : ℕ) (s : RxState) : receiveData now none s = s := rfl

/-- `isConnected` after the 3000 ms window forces `notConnected` and leaves
the timestamp alone. -/
theorem isConnected_timeout (now : ℕ) (s : RxState) (ht : 3000 < now - s.lastReceive) :
    (isConnected now s).rxData.mode = notConnected ∧
      (isConnected now s).lastReceive = s.lastReceive := by
  unfold isConnected
  rw [if_pos ht]
  exact ⟨rfl, rfl⟩

/-- `updateAccessoires` touches neither the active packet nor the
timestamp. -/
theorem updateAccessoires_rxData (s : RxState) :
    (updateAccessoires s).rxData = s.rxData ∧
      (updateAccessoires s).lastReceive = s.lastReceive := by
  unfold updateAccessoires
  split_ifs <;> exact ⟨rfl, rfl⟩

/-- `updatePwmDevices` touches neither the active packet nor the
timestamp. -/
theorem updatePwmDevices_rxData (s : RxState) :
    (updatePwmDevices s).rxData = s.rxData ∧
      (updatePwmDevices s).lastReceive = s.lastReceive :=
  ⟨rfl, rfl⟩

/-- A loop pass with nothing received and the timeout window expired ends
with mode `notConnected` and the timestamp unchanged, from any in-range
mode. -/
theorem loopStep_none_timeout (c : RxCycle) (s : RxState)
    (hm0 : 0 ≤ s.rxData.mode) (hm4 : s.rxData.mode ≤ 4)
    (hinc : c.incoming = none) (ht : 3000 < c.now - s.lastReceive) :
    (loopStep c s).rxData.mode = notConnected ∧
      (loopStep c s).lastReceive = s.lastReceive := by
  have hcase : s.rxData.mode = 0 ∨ s.rxData.mode = 1 ∨ s.rxData.mode = 2 ∨
      s.rxData.mode = 3 ∨ s.rxData.mode = 4 := by omega
  unfold loopStep waitForRemote idleMode easyMode proMode debugMode
  rcases hcase with h | h | h | h | h <;>
    simp [h, idle, easy, pro, debugOpt, notConnected, hinc, receiveData_none,
          apply_ite (fun st : RxState => st.rxData.mode),
          apply_ite (fun st : RxState => st.lastReceive),
          (updateAccessoires_rxData _).1, (updateAccessoires_rxData _).2,
          (updatePwmDevices_rxData _).1, (updatePwmDevices_rxData _).2,
          (isConnected_timeout c.now _ ht).1, (isConnected_timeout c.now _ ht).2]

/-- A loop pass with nothing received keeps mode `notConnected` and the
timestamp unchanged. -/
theorem loopStep_none_stay (c : RxCycle) (s : RxState)
    (h4 : s.rxData.mode = notConnected) (hinc : c.incoming = none) :
    (loopStep c s).rxData.mode = notConnected ∧
      (loopStep c s).lastReceive = s.lastReceive := by
  unfold loopStep waitForRemote
  simp [h4, notConnected, hinc, receiveData_none,
        apply_ite (fun st : RxState => st.rxData.mode),
        apply_ite (fun st : RxState => st.lastReceive)]

/-- While no packet arrives, `notConnected` persists over any run. -/
theorem runCycles_none_stay (cs : List RxCycle) (s : RxState)
    (h4 : s.rxData.mode = notConnected) (hinc : ∀ c ∈ cs, c.incoming = none) :
    (runCycles s cs).rxData.mode = notConnected := by
  induction cs generalizing s with
  | nil => simpa [runCycles] using h4
  | cons c cs ih =>
    have h := loopStep_none_stay c s h4 (hinc c (by simp))
    exact ih (loopStep c s) h.1 (fun x hx => hinc x (by simp [hx]))

/-- Claim C1 (amended): the link timestamp is reset by every received
packet, whether or not it validates; and the mode is forced to
`notConnected` on the next link check when no packet at all has been
received for more than 3000 ms. -/
theorem link_timer_reset_on_any_reception_and_timeout :
    (∀ (now : ℕ) (pkt : Packet) (s : RxState),
        (receiveData now (some pkt) s).lastReceive = now) ∧
      (∀ (s : RxState) (c : RxCycle) (cs : List RxCycle),
        0 ≤ s.rxData.mode → s.rxData.mode ≤ 4 →
        (∀ x ∈ c :: cs, x.incoming = none ∧ 3000 < x.now - s.lastReceive) →
        (runCycles s (c :: cs)).rxData.mode = notConnected) := by
  constructor
  · intro now pkt s
    cases hv : validateData pkt <;> simp [receiveData, hv]
  · intro s c cs hm0 hm4 hx
    have h1 := loopStep_none_timeout c s hm0 hm4 (hx c (by simp)).1 (hx c (by simp)).2
    exact runCycles_none_stay cs (loopStep c s) h1.1
      (fun x hxm => (hx x (by simp [hxm])).1)

/-- Claim C1, witness: an invalid packet at time 7 stamps `lastReceive` to
7, and a silent trace of one cycle at time 4000 from easy mode ends
`notConnected`. -/
theorem link_timer_reset_on_any_reception_and_timeout_witness :
    (receiveData 7 (some pInvalid) (mkRx pEasy)).lastReceive = 7 ∧
      (runCycles (mkRx pEasy) [⟨4000, none, false⟩]).rxData.mode = notConnected :=
  ⟨link_timer_reset_on_any_reception_and_timeout.1 7 pInvalid (mkRx pEasy),
   link_timer_reset_on_any_reception_and_timeout.2 (mkRx pEasy) ⟨4000, none, false⟩ []
     (by decide) (by decide) (by decide)⟩

/-- Claim C1, counterexample to the claim as stated: the receiver accepts
no valid packet between time 0 and time 3500 (more than 3000 ms), but the
invalid packet received at time 2000 resets the timestamp, so the link
check at 3500 leaves the mode at easy instead of forcing
`notConnected`. -/
theorem link_timeout_defeated_by_invalid_traffic_cex :
    validateData pInvalid = false ∧
      (runCycles (mkRx pEasy) [⟨2000, some pInvalid, false⟩, ⟨3500, none, false⟩]).rxData.mode
        = easy ∧
      (runCycles (mkRx pEasy) [⟨2000, some pInvalid, false⟩, ⟨3500, none, false⟩]).rxData.mode
        ≠ notConnected := by
  refine ⟨by decide, by decide, by decide⟩

/-- Claim C9: from a homed axis, the sample sequence
`[550, 700, 700, 550, 700]` against the deadband `(400, 600)` produces the
real reading 700 exactly at calls 1 and 4 and the neutral sentinel 512
elsewhere. -/
theorem readJoystick_homing (j : ℕ) (i : Fin 4) (h0 : Fin 4 → Bool)
    (hj : joystickIndex j = some i) (hh : h0 i = true) :
    runJoystick j h0 [550, 700, 700, 550, 700] = [512, 700, 512, 512, 700] := by
  norm_num [runJoystick, readJoystick, hj, readJoystickAxis,
            joyStickHighTrigger, joyStickLowTrigger, hh, Function.update_same]

/-- Claim C9, witness: the `leftY` axis with every axis initially homed. -/
theorem readJoystick_homing_witness :
    joystickIndex leftYPin = some 0 ∧
      runJoystick leftYPin (fun _ => true) [550, 700, 700, 550, 700]
        = [512, 700, 512, 512, 700] :=
  ⟨by decide, readJoystick_homing leftYPin 0 (fun _ => true) (by decide) rfl⟩

/-- The tab-switch block never changes the outgoing packet or the EEPROM
slots. -/
theorem editTabSwitch_txData (st : EditState) (inp : EditInput) :
    (editTabSwitch st inp).txData = st.txData ∧
      (editTabSwitch st inp).eeprom0 = st.eeprom0 ∧
      (editTabSwitch st inp).eeprom1 = st.eeprom1 := by
  simp only [editTabSwitch]
  split_ifs <;> exact ⟨rfl, rfl, rfl⟩

/-- The blink and scroll blocks touch only the buffer and the visibility
flag. -/
theorem editBlinkScroll_fields (st : EditState) (inp : EditInput) :
    (editBlinkScroll st inp).txData = st.txData ∧
      (editBlinkScroll st inp).valueHighlighted = st.valueHighlighted ∧
      (editBlinkScroll st inp).page = st.page ∧
      (editBlinkScroll st inp).eeprom0 = st.eeprom0 ∧
      (editBlinkScroll st inp).eeprom1 = st.eeprom1 := by
  simp only [editBlinkScroll]
  split_ifs <;> simp

/-- While the scroll cooldown has not expired, the buffer is unchanged. -/
theorem editBlinkScroll_buffer (st : EditState) (inp : EditInput)
    (h : inp.scrollExpired = false) :
    (editBlinkScroll st inp).buffer = st.buffer := by
  simp only [editBlinkScroll, h]
  split_ifs <;> simp_all

/-- One edit-loop iteration keeps `mode = idle` unless it exits, in which
case it restores `mode = pro`. -/
theorem editStep_mode (st : EditState) (inp : EditInput) (h : st.txData.mode = idle) :
    ((editStep st inp).2 = true → (editStep st inp).1.txData.mode = pro) ∧
      ((editStep st inp).2 = false → (editStep st inp).1.txData.mode = idle) := by
  have hbs := editBlinkScroll_fields st inp
  simp only [editStep]
  split_ifs <;>
    simp [(editTabSwitch_txData _ _).1, hbs.1, h,
          apply_ite (fun x : EditState => x.txData),
          apply_ite (fun p : Packet => p.mode)]

/-- Over any run of the edit loop from a state in `idle` mode, every sent
packet carries `idle`, and the final mode is `pro` exactly on exit. -/
theorem runEdit_invariant (inputs : List EditInput) (st : EditState)
    (h : st.txData.mode = idle) :
    (∀ m ∈ (runEditCollect st inputs).1, m = idle) ∧
      ((runEditCollect st inputs).2.2 = true →
        (runEditCollect st inputs).2.1.txData.mode = pro) ∧
      ((runEditCollect st inputs).2.2 = false →
        (runEditCollect st inputs).2.1.txData.mode = idle) := by
  induction inputs generalizing st with
  | nil => simp [runEditCollect, h]
  | cons inp inps ih =>
    have hstep := editStep_mode st inp h
    cases hex : (editStep st inp).2 with
    | true =>
      refine ⟨?_, ?_, ?_⟩ <;>
        simp [runEditCollect, hex, hstep.1 hex] <;>
        cases hsn : inp.sendNow <;> simp [hsn, h]
    | false =>
      have hrest := ih (editStep st inp).1 (hstep.2 hex)
      refine ⟨?_, ?_, ?_⟩
      · intro m hm
        cases hsn : inp.sendNow <;> simp [runEditCollect, hex, hsn] at hm
        · exact hrest.1 m hm
        · rcases hm with hml | hmr
          · simp [hml, h]
          · exact hrest.1 m hmr
      · intro hfin
        simp [runEditCollect, hex] at hfin ⊢
        exact hrest.2.1 hfin
      · intro hfin
        simp [runEditCollect, hex] at hfin ⊢
        exact hrest.2.2 hfin

/-- Claim C10: entering the settings editor forces `mode = idle`, every
packet sent while the editor runs carries `idle`, and the mode is `pro`
again exactly when the editor exits through the back edge in browsing
state. -/
theorem editSettings_sends_idle_until_back_exit (s : EditState) (inputs : List EditInput) :
    (∀ m ∈ (runEditCollect (editEntry s) inputs).1, m = idle) ∧
      ((runEditCollect (editEntry s) inputs).2.2 = true →
        (runEditCollect (editEntry s) inputs).2.1.txData.mode = pro) ∧
      ((runEditCollect (editEntry s) inputs).2.2 = false →
        (runEditCollect (editEntry s) inputs).2.1.txData.mode = idle) :=
  runEdit_invariant inputs (editEntry s) rfl

/-- Claim C10, witness: a nop iteration followed by a back edge: both sent
packets carry `idle`, the run exits, and the final mode is `pro`. -/
theorem editSettings_sends_idle_until_back_exit_witness :
    (runEditCollect (editEntry eEx) [iNop, iBack]).1 = [idle, idle] ∧
      (runEditCollect (editEntry eEx) [iNop, iBack]).2.2 = true ∧
      (runEditCollect (editEntry eEx) [iNop, iBack]).2.1.txData.mode = pro :=
  ⟨by decide, by decide,
   (editSettings_sends_idle_until_back_exit eEx [iNop, iBack]).2.1 (by decide)⟩

/-- Claim C5 (amended): slot 0 holds the throttle sensitivity and slot 1
the steering sensitivity: Pro-screen entry loads throttle from slot 0 and
steering from slot 1, and a commit (acknowledge edge while highlighted)
stores the buffer into slot 0 and the live throttle sensitivity on the
throttle page, and into slot 1 and the live steering sensitivity on the
steering page. -/
theorem settings_slot0_throttle_slot1_steering :
    (∀ s : EditState,
        (proScreenEntry s).txData.throttleSensitifity = int8ofByte s.eeprom0 ∧
          (proScreenEntry s).txData.steerSensitifity = int8ofByte s.eeprom1) ∧
      (∀ (st : EditState) (inp : EditInput),
        inp.ackEdge = true → st.valueHighlighted = true → inp.scrollExpired = false →
        st.page = false →
          (editStep st inp).1.eeprom0 = st.buffer ∧
            (editStep st inp).1.txData.throttleSensitifity = int8ofByte st.buffer ∧
            (editStep st inp).1.eeprom1 = st.eeprom1) ∧
      (∀ (st : EditState) (inp : EditInput),
        inp.ackEdge = true → st.valueHighlighted = true → inp.scrollExpired = false →
        st.page = true →
          (editStep st inp).1.eeprom1 = st.buffer ∧
            (editStep st inp).1.txData.steerSensitifity = int8ofByte st.buffer ∧
            (editStep st inp).1.eeprom0 = st.eeprom0) := by
  refine ⟨fun s => ⟨rfl, rfl⟩, ?_, ?_⟩ <;>
    · intro st inp hack hhl hscroll hpage
      have hbs := editBlinkScroll_fields st inp
      have hbuf := editBlinkScroll_buffer st inp hscroll
      simp [editStep, hack, hhl, hpage, hbuf, hbs.1, hbs.2.1, hbs.2.2.1,
            hbs.2.2.2.1, hbs.2.2.2.2,
            (editTabSwitch_txData _ _).1, (editTabSwitch_txData _ _).2.1,
            (editTabSwitch_txData _ _).2.2]

/-- Claim C5, witness: with slot 0 holding 11 and slot 1 holding 22,
Pro-screen entry yields throttle 11 and steering 22; committing buffer 40
on the throttle page stores 40 into slot 0. -/
theorem settings_slot0_throttle_slot1_steering_witness :
    (proScreenEntry eEx).txData.throttleSensitifity = int8ofByte eEx.eeprom0 ∧
      (editStep { eEx with valueHighlighted := true } iAck).1.eeprom0
          = { eEx with valueHighlighted := true }.buffer ∧
      (editStep { eEx with valueHighlighted := true } iAck).1.eeprom1 = eEx.eeprom1 :=
  ⟨(settings_slot0_throttle_slot1_steering.1 eEx).1,
   (settings_slot0_throttle_slot1_steering.2.1 { eEx with valueHighlighted := true } iAck
      rfl rfl rfl rfl).1,
   (settings_slot0_throttle_slot1_steering.2.1 { eEx with valueHighlighted := true } iAck
      rfl rfl rfl rfl).2.2⟩

/-- Claim C5, counterexample to the claim as stated: with slot 0 = 11 and
slot 1 = 22, Pro-screen entry loads the steering sensitivity 22 from slot
1, not from slot 0 as the claim places it. -/
theorem settings_slots_swapped_cex :
    eEx.eeprom0 = 11 ∧ eEx.eeprom1 = 22 ∧
      (proScreenEntry eEx).txData.steerSensitifity = 22 ∧
      (proScreenEntry eEx).txData.throttleSensitifity = 11 ∧
      (proScreenEntry eEx).txData.steerSensitifity ≠ 11 := by
  refine ⟨by decide, by decide, by decide, by decide, by decide⟩
